import Mathlib

/-!
Verification of the medical-claim-processor pipeline.

This file gives a shallow embedding, in Lean 4, of the deterministic core of
the claim-processing pipeline:

* `src/services/document_classifier.py` — `_rule_based_classify`;
* `src/agents/{bill,discharge,insurance}_agent.py` — `_combine_extraction_results`
  (textually identical in the three agents) and the three `_calculate_confidence`
  functions, plus the candidate-filtering step of `_extract_sum_insured`;
* `src/services/validator.py` — `validate` with its discrepancy / warning /
  missing-document checks;
* `src/services/decision_engine.py` — `_rule_based_decision` and the
  exception-catching wrapper `make_decision` (deterministic mode, no model
  backend configured);
* `src/services/claim_processor.py` — the top-level `process_claim`
  try/except wrapper.

Python dynamic values that can appear in the extracted-field dictionaries are
modelled by `PyValue` (absent/None, strings, numbers as exact rationals, and
bill line-item lists).  Python truthiness is `truthy`.  Python `dict.get`
with its `None` default is `dictGet`.  Code that can raise (`len()` on a
non-sized value, division by zero) is modelled with `Except String`.

The model-based ("LLM") paths call an external generative backend; in the
embedding their parsed result is an input of type `Option`-dictionary:
`Option.none` corresponds to "no model data" (backend absent, backend error,
or JSON parse failure — all collapsed to `None` by `_llm_extract`, lines
58-71 of `base_agent.py`).  Regular-expression pattern matching (Python `re`)
is an external library; pattern-extraction results likewise enter the model
as inputs, except for the purely string-based normalisation helpers, which
are embedded directly.
-/

namespace MedClaim

/-- A bill line item, `{description, amount, quantity}`
(`bill_agent.py`, `_extract_line_items`). -/
structure BillItem where
  description : String
  amount : ℚ
  quantity : ℚ
deriving DecidableEq

/-- The Python values stored in an extracted-field dictionary: `None`,
strings, numbers (int/float, modelled as exact rationals), and lists of bill
line items. -/
inductive PyValue where
  | none
  | str (s : String)
  | num (q : ℚ)
  | list (xs : List BillItem)
deriving DecidableEq

/-- Python truthiness for `PyValue`: `None`, `""`, `0` and `[]` are falsy. -/
def truthy : PyValue → Bool
  | PyValue.none => false
  | PyValue.str s => if s = "" then false else true
  | PyValue.num q => if q = 0 then false else true
  | PyValue.list xs => if xs = [] then false else true

/-- Python `a or b`: the first operand when truthy, otherwise the second. -/
def pyOr (a b : PyValue) : PyValue := if truthy a then a else b

/-- First-match association-list lookup; dictionaries with unique keys behave
exactly like Python dicts under this lookup. -/
def assocGet {α : Type} : List (String × α) → String → Option α
  | [], _ => Option.none
  | (k, v) :: rest, key => if k = key then Option.some v else assocGet rest key

/-- Python `d.get(key)` on a field dictionary: `None` when the key is absent. -/
def dictGet (d : List (String × PyValue)) (k : String) : PyValue :=
  (assocGet d k).getD PyValue.none

/-- Whether `needle` is a prefix of `hay` (over character lists). -/
def charsStartWith : List Char → List Char → Bool
  | _, [] => true
  | [], _ :: _ => false
  | a :: as, b :: bs => a == b && charsStartWith as bs

/-- Whether `needle` occurs as a contiguous substring of `hay`
(over character lists); models Python `needle in hay`. -/
def charsContain : List Char → List Char → Bool
  | [], needle => needle.isEmpty
  | a :: as, needle => charsStartWith (a :: as) needle || charsContain as needle

/-- Python `p in s` (substring containment). -/
def strContainsSub (hay needle : String) : Bool := charsContain hay.data needle.data

/-- Whether the string `p` is a prefix of `s`. -/
def strBeginsWith (s p : String) : Bool := charsStartWith s.data p.data

/-- Python `str.lower()` (ASCII case folding suffices for this code base). -/
def strLower (s : String) : String := ⟨s.data.map Char.toLower⟩

/-- Helper for `pySplitWs`: accumulates the current word (reversed). -/
def splitWsAux : List Char → List Char → List String
  | acc, [] => if acc.isEmpty then [] else [⟨acc.reverse⟩]
  | acc, c :: cs =>
    if c.isWhitespace then
      (if acc.isEmpty then splitWsAux [] cs
       else (⟨acc.reverse⟩ : String) :: splitWsAux [] cs)
    else splitWsAux (c :: acc) cs

/-- Python `str.split()` with no argument: split on whitespace runs, dropping
empty pieces. -/
def pySplitWs (s : String) : List String := splitWsAux [] s.data

/-- Python `sep.join(xs)`. -/
def joinWith (sep : String) : List String → String
  | [] => ""
  | [x] => x
  | x :: y :: rest => x ++ sep ++ joinWith sep (y :: rest)

/-- Fuel-driven worker for `strReplace`; the fuel starts at the length of the
haystack, which the scan never exhausts. -/
def charsReplaceGo (needle repl : List Char) : ℕ → List Char → List Char
  | _, [] => []
  | 0, l => l
  | fuel + 1, a :: as =>
    if !needle.isEmpty && charsStartWith (a :: as) needle then
      repl ++ charsReplaceGo needle repl fuel (as.drop (needle.length - 1))
    else a :: charsReplaceGo needle repl fuel as

/-- Python `s.replace(needle, repl)`: left-to-right, non-overlapping
replacement of every occurrence (for non-empty needles, the only use here). -/
def strReplace (s needle repl : String) : String :=
  ⟨charsReplaceGo needle.data repl.data s.data.length s.data⟩

/-- Python `min` on two numbers. -/
def pyMin (a b : ℚ) : ℚ := if a ≤ b then a else b

/-- Python `max` on two numbers. -/
def pyMax (a b : ℚ) : ℚ := if a ≤ b then b else a

/-- Rendering of a `PyValue` inside an f-string.  Faithful for the string
values that actually reach message templates in this code base; numeric and
list renderings are simplified (no claim inspects a message built from a
non-string value). -/
def pyStr : PyValue → String
  | PyValue.none => "None"
  | PyValue.str s => s
  | PyValue.num q => toString q
  | PyValue.list _ => "[...]"

/-- Two-decimal rendering of a rational, standing in for Python `f"{x:.2f}"`
(rounding mode approximated; no claim depends on a rendered number). -/
def formatQ2 (q : ℚ) : String :=
  let c : ℤ := (q * 100 + 1 / 2).floor
  let m := c.natAbs
  let frac := m % 100
  (if c < 0 then "-" else "") ++ toString (m / 100) ++ "." ++
    (if frac < 10 then "0" else "") ++ toString frac

/-- Fuel-driven thousands grouping over reversed digit characters. -/
def groupThousandsGo : ℕ → List Char → List Char
  | _, [] => []
  | 0, l => l
  | fuel + 1, l =>
    if l.length ≤ 3 then l else l.take 3 ++ ',' :: groupThousandsGo fuel (l.drop 3)

/-- Comma-grouped two-decimal rendering, standing in for Python
`f"{x:,.2f}"` (same caveat as `formatQ2`). -/
def formatMoney2 (q : ℚ) : String :=
  let c : ℤ := (q * 100 + 1 / 2).floor
  let m := c.natAbs
  let intDigits := (toString (m / 100)).data
  let frac := m % 100
  (if c < 0 then "-" else "") ++
    (⟨(groupThousandsGo intDigits.length intDigits.reverse).reverse⟩ : String) ++
    "." ++ (if frac < 10 then "0" else "") ++ toString frac

/-- `ExtractedData` (`data_models.py`): the typed output of one extractor. -/
structure ExtractedData where
  document_type : String
  data : List (String × PyValue)
  extraction_confidence : ℚ
  raw_text : String := ""
deriving DecidableEq

/-- `ValidationResult` (`data_models.py`). -/
structure ValidationResult where
  missing_documents : List String := []
  discrepancies : List String := []
  warnings : List String := []
deriving DecidableEq

/-- `ClaimDecision` (`data_models.py`). -/
structure ClaimDecision where
  status : String
  reason : String
  confidence : ℚ := 0
  recommended_amount : Option ℚ := Option.none
deriving DecidableEq

/-- `ProcessClaimResponse` (`data_models.py`); the per-document response
payload is opaque to every claim and kept as a generic dictionary. -/
structure ProcessClaimResponse where
  documents : List (String × PyValue) := []
  validation : ValidationResult
  claim_decision : ClaimDecision
  processing_summary : List (String × ℕ) := []
deriving DecidableEq

/-! ### Classifier (`document_classifier.py`, `_rule_based_classify`) -/

def billKeywords : List String :=
  ["bill", "invoice", "charges", "amount", "total", "hospital", "medical"]

def dischargeKeywords : List String :=
  ["discharge", "summary", "diagnosis", "admission", "patient"]

def insuranceKeywords : List String :=
  ["insurance", "policy", "card", "coverage", "premium"]

/-- `sum(1 for keyword in kws if keyword in filename_lower or keyword in text_lower)`. -/
def keywordScore (kws : List String) (filenameLower textLower : String) : ℕ :=
  (kws.filter (fun kw =>
    strContainsSub filenameLower kw || strContainsSub textLower kw)).length

/-- `_rule_based_classify` (lines 36-70): keyword scoring with the fixed
`if/elif` chain; returns the document-type label and the heuristic
confidence. -/
def ruleBasedClassify (filename textContent : String) : String × ℚ :=
  let filenameLower := strLower filename
  let textLower := strLower textContent
  let billScore := keywordScore billKeywords filenameLower textLower
  let dischargeScore := keywordScore dischargeKeywords filenameLower textLower
  let insuranceScore := keywordScore insuranceKeywords filenameLower textLower
  if billScore ≥ dischargeScore ∧ billScore ≥ insuranceScore then
    ("hospital_bill", pyMin (9 / 10) ((billScore : ℚ) / (billKeywords.length : ℚ)))
  else if dischargeScore ≥ insuranceScore then
    ("discharge_summary", pyMin (9 / 10) ((dischargeScore : ℚ) / (dischargeKeywords.length : ℚ)))
  else if insuranceScore > 0 then
    ("insurance_card", pyMin (9 / 10) ((insuranceScore : ℚ) / (insuranceKeywords.length : ℚ)))
  else
    ("other", 1 / 10)

/-! ### Extractor merge and confidence
(`bill_agent.py` / `discharge_agent.py` / `insurance_agent.py`; the
`_combine_extraction_results` body is textually identical in the three
agents and is embedded once) -/

/-- `_combine_extraction_results`: `None` model data returns the rule-based
dictionary unchanged; otherwise, for each rule-based key,
`combined[key] = llm_data.get(key) or rule_data.get(key)`. -/
def combineExtractionResults (llmData : Option (List (String × PyValue)))
    (ruleData : List (String × PyValue)) : List (String × PyValue) :=
  match llmData with
  | Option.none => ruleData
  | Option.some l =>
    ruleData.map (fun p => (p.1, pyOr (dictGet l p.1) (dictGet ruleData p.1)))

/-- Models `data.get('items') and len(data['items']) > 0`
(`bill_agent.py`, line 281): a falsy value short-circuits to `False`; `len`
of a sized value compares its length; `len` of a truthy number raises
`TypeError` (the pattern path always supplies a list, so the error is only
reachable through a malformed model value). -/
def billItemsCheck : PyValue → Except String Bool
  | PyValue.none => Except.ok false
  | PyValue.str s => Except.ok (if s = "" then false else true)
  | PyValue.num q =>
    if q = 0 then Except.ok false
    else Except.error "object of type number has no len()"
  | PyValue.list xs => Except.ok (if xs = [] then false else true)

/-- `_calculate_confidence` of `bill_agent.py` (lines 263-284): fixed field
weights, clamped by `min(score, 1.0)`. -/
def billCalculateConfidence (data : List (String × PyValue)) : Except String ℚ :=
  match billItemsCheck (dictGet data "items") with
  | Except.error e => Except.error e
  | Except.ok itemsPresent =>
    Except.ok (pyMin
      ((if truthy (dictGet data "hospital_name") then (2 : ℚ) / 10 else 0)
        + (if truthy (dictGet data "total_amount") then 2 / 10 else 0)
        + (if truthy (dictGet data "patient_name") then 15 / 100 else 0)
        + (if truthy (dictGet data "date_of_service")
             || truthy (dictGet data "admission_date") then 15 / 100 else 0)
        + (if truthy (dictGet data "insurance_company") then 1 / 10 else 0)
        + (if truthy (dictGet data "policy_number") then 1 / 10 else 0)
        + (if itemsPresent then 1 / 10 else 0))
      1)

/-- `_calculate_confidence` of `discharge_agent.py` (lines 226-246). -/
def dischargeCalculateConfidence (data : List (String × PyValue)) : ℚ :=
  pyMin
    ((if truthy (dictGet data "patient_name") then (2 : ℚ) / 10 else 0)
      + (if truthy (dictGet data "diagnosis") then 25 / 100 else 0)
      + (if truthy (dictGet data "admission_date") then 15 / 100 else 0)
      + (if truthy (dictGet data "discharge_date") then 15 / 100 else 0)
      + (if truthy (dictGet data "doctor_name") then 1 / 10 else 0)
      + (if truthy (dictGet data "hospital_name") then 1 / 10 else 0)
      + (if truthy (dictGet data "treatment_summary") then 5 / 100 else 0))
    1

/-- `_calculate_confidence` of `insurance_agent.py` (lines 221-237). -/
def insuranceCalculateConfidence (data : List (String × PyValue)) : ℚ :=
  pyMin
    ((if truthy (dictGet data "policy_number") then (3 : ℚ) / 10 else 0)
      + (if truthy (dictGet data "card_holder_name") then 25 / 100 else 0)
      + (if truthy (dictGet data "insurance_company") then 25 / 100 else 0)
      + (if truthy (dictGet data "sum_insured") then 15 / 100 else 0)
      + (if truthy (dictGet data "validity_date") then 5 / 100 else 0))
    1

/-! ### Sum-insured extraction (`insurance_agent.py`, `_extract_sum_insured`,
lines 141-165).  The regular-expression scan that collects the raw numeric
match strings is external (`re.findall`); the per-match processing —
comma stripping, `float()` conversion, the `>= 10000` noise floor and the
final `max` — is embedded. -/

/-- Digits-only numeral parser (`None` result on any non-digit). -/
def natOfDigits (cs : List Char) : Option ℕ :=
  cs.foldl (fun acc c =>
    match acc with
    | Option.none => Option.none
    | Option.some n =>
      if c.isDigit then Option.some (n * 10 + (c.toNat - 48)) else Option.none)
    (Option.some 0)

/-- Python `float()` restricted to the numeral shapes the regex capture
groups `[0-9,]+\.?[0-9]*` can deliver after comma stripping: an optional
single decimal point between digit runs; fails (`ValueError`) otherwise. -/
def pyFloat (s : String) : Option ℚ :=
  match s.data.splitOn '.' with
  | [a] =>
    if a.isEmpty then Option.none
    else (natOfDigits a).map (fun n => (n : ℚ))
  | [a, b] =>
    if a.isEmpty && b.isEmpty then Option.none
    else
      match natOfDigits a, natOfDigits b with
      | Option.some n, Option.some m =>
        Option.some ((n : ℚ) + (m : ℚ) / (10 : ℚ) ^ b.length)
      | _, _ => Option.none
  | _ => Option.none

/-- The candidate amounts that survive parsing and the `>= 10000` floor, in
match order (lines 151-162). -/
def sumInsuredCandidates (matchStrs : List String) : List ℚ :=
  matchStrs.filterMap (fun m =>
    match pyFloat (strReplace m "," "") with
    | Option.some a => if a ≥ 10000 then Option.some a else Option.none
    | Option.none => Option.none)

/-- `_extract_sum_insured` given the regex match strings: `max(amounts)` when
any candidate survives, else `None` (lines 164-165). -/
def extractSumInsured (matchStrs : List String) : Option ℚ :=
  match sumInsuredCandidates matchStrs with
  | [] => Option.none
  | a :: rest => Option.some (rest.foldl pyMax a)

/-! ### Validator (`validator.py`) -/

/-- `self.required_documents` of `ClaimValidator`. -/
def requiredDocuments : List String := ["hospital_bill", "discharge_summary"]

/-- `_check_missing_documents` (lines 27-38). -/
def checkMissingDocuments (extractedData : List ExtractedData) : List String :=
  requiredDocuments.filterMap (fun req =>
    if (extractedData.map (fun d => d.document_type)).contains req then Option.none
    else Option.some ("Missing required document: " ++ req))

/-- The `data_by_type` grouping (`validator.py` lines 46-49 and 118-121):
Python dict assignment in list order, so the **last** record of each type
wins; represented as a prepend-and-first-match association list, which has
exactly that lookup semantics. -/
def groupByType (extractedData : List ExtractedData) :
    List (String × List (String × PyValue)) :=
  extractedData.foldl (fun m d => (d.document_type, d.data) :: m) []

/-- `_names_match` normalisation: `' '.join(name.lower().split())`. -/
def normalizeName (s : String) : String := joinWith " " (pySplitWs (strLower s))

/-- `_names_match` (lines 146-162): all names equal after normalisation. -/
def namesMatch (names : List String) : Bool :=
  match names.map normalizeName with
  | [] => true
  | n :: rest => rest.all (fun m => m = n)

/-- `_hospital_names_match` normalisation (lines 171-179): lower-case, strip
the generic words, re-collapse whitespace. -/
def normalizeHospital (s : String) : String :=
  joinWith " " (pySplitWs
    (strReplace (strReplace (strReplace (strReplace (strLower s)
      "hospital" "") "medical" "") "centre" "") "center" ""))

/-- `_hospital_names_match` (lines 164-183). -/
def hospitalNamesMatch (names : List String) : Bool :=
  match names.map normalizeHospital with
  | [] => true
  | n :: rest => rest.all (fun m => m = n)

/-- `_insurance_companies_match` normalisation (lines 190-194). -/
def normalizeInsurer (s : String) : String :=
  joinWith " " (pySplitWs
    (strReplace (strReplace (strReplace (strReplace (strLower s)
      "insurance" "") "general" "") "ltd" "") "limited" ""))

/-- `_insurance_companies_match` (lines 185-196). -/
def insuranceCompaniesMatch (company1 company2 : String) : Bool :=
  normalizeInsurer company1 = normalizeInsurer company2

/-- The `patient_names` pairs collected by `_check_discrepancies`
(lines 51-57): for each of the three known types present in the grouping, the
truthy `patient_name or card_holder_name` value. -/
def patientNames (dataByType : List (String × List (String × PyValue))) :
    List (String × PyValue) :=
  ["hospital_bill", "discharge_summary", "insurance_card"].filterMap (fun dt =>
    match assocGet dataByType dt with
    | Option.some d =>
      let name := pyOr (dictGet d "patient_name") (dictGet d "card_holder_name")
      if truthy name then Option.some (dt, name) else Option.none
    | Option.none => Option.none)

/-- The patient-name block of `_check_discrepancies` (lines 59-63). -/
def patientNameDiscrepancies
    (dataByType : List (String × List (String × PyValue))) : List String :=
  let pn := patientNames dataByType
  if pn.length > 1 && !namesMatch (pn.map (fun p => pyStr p.2)) then
    ["Patient name mismatch across documents: " ++
      joinWith ", " (pn.map (fun p => p.1 ++ ": " ++ pyStr p.2))]
  else []

/-- The admission-date block of `_check_discrepancies` (lines 70-75). -/
def admissionDateDiscrepancies
    (dataByType : List (String × List (String × PyValue))) : List String :=
  match assocGet dataByType "hospital_bill", assocGet dataByType "discharge_summary" with
  | Option.some billData, Option.some dischargeData =>
    let a := dictGet billData "admission_date"
    let b := dictGet dischargeData "admission_date"
    if truthy a && truthy b && a ≠ b then
      ["Admission date mismatch: Bill shows " ++ pyStr a ++
        ", Discharge summary shows " ++ pyStr b]
    else []
  | _, _ => []

/-- The discharge-date block of `_check_discrepancies` (lines 77-82). -/
def dischargeDateDiscrepancies
    (dataByType : List (String × List (String × PyValue))) : List String :=
  match assocGet dataByType "hospital_bill", assocGet dataByType "discharge_summary" with
  | Option.some billData, Option.some dischargeData =>
    let a := dictGet billData "discharge_date"
    let b := dictGet dischargeData "discharge_date"
    if truthy a && truthy b && a ≠ b then
      ["Discharge date mismatch: Bill shows " ++ pyStr a ++
        ", Discharge summary shows " ++ pyStr b]
    else []
  | _, _ => []

/-- The `hospital_names` pairs collected by `_check_discrepancies`
(lines 85-90). -/
def hospitalNamePairs (dataByType : List (String × List (String × PyValue))) :
    List (String × PyValue) :=
  ["hospital_bill", "discharge_summary"].filterMap (fun dt =>
    match assocGet dataByType dt with
    | Option.some d =>
      let h := dictGet d "hospital_name"
      if truthy h then Option.some (dt, h) else Option.none
    | Option.none => Option.none)

/-- The hospital-name block of `_check_discrepancies` (lines 92-95). -/
def hospitalNameDiscrepancies
    (dataByType : List (String × List (String × PyValue))) : List String :=
  let hn := hospitalNamePairs dataByType
  if hn.length > 1 && !hospitalNamesMatch (hn.map (fun p => pyStr p.2)) then
    ["Hospital name mismatch: " ++
      joinWith ", " (hn.map (fun p => p.1 ++ ": " ++ pyStr p.2))]
  else []

/-- The insurance-company block of `_check_discrepancies` (lines 98-103). -/
def insuranceCompanyDiscrepancies
    (dataByType : List (String × List (String × PyValue))) : List String :=
  match assocGet dataByType "hospital_bill", assocGet dataByType "insurance_card" with
  | Option.some billData, Option.some cardData =>
    let bi := dictGet billData "insurance_company"
    let ci := dictGet cardData "insurance_company"
    if truthy bi && truthy ci && !insuranceCompaniesMatch (pyStr bi) (pyStr ci) then
      ["Insurance company mismatch: Bill shows " ++ pyStr bi ++
        ", Card shows " ++ pyStr ci]
    else []
  | _, _ => []

/-- `_check_discrepancies` (lines 40-105): the five blocks append to one list
in program order, all reading the per-type grouping. -/
def checkDiscrepancies (extractedData : List ExtractedData) : List String :=
  let dataByType := groupByType extractedData
  patientNameDiscrepancies dataByType
    ++ admissionDateDiscrepancies dataByType
    ++ dischargeDateDiscrepancies dataByType
    ++ hospitalNameDiscrepancies dataByType
    ++ insuranceCompanyDiscrepancies dataByType

/-- The per-record low-confidence warnings of `_check_warnings`
(lines 113-116); these read every record, not the grouping. -/
def lowConfidenceWarnings (extractedData : List ExtractedData) : List String :=
  extractedData.filterMap (fun d =>
    if d.extraction_confidence < 1 / 2 then
      Option.some ("Low confidence extraction for " ++ d.document_type ++ ": " ++
        formatQ2 d.extraction_confidence)
    else Option.none)

/-- The missing-key-field warnings of `_check_warnings` (lines 118-142),
which read only the per-type grouping. -/
def missingFieldWarnings
    (dataByType : List (String × List (String × PyValue))) : List String :=
  (match assocGet dataByType "hospital_bill" with
   | Option.some billData =>
     (if truthy (dictGet billData "total_amount") then []
      else ["Hospital bill missing total amount"])
       ++ (if truthy (dictGet billData "patient_name") then []
           else ["Hospital bill missing patient name"])
   | Option.none => [])
    ++ (match assocGet dataByType "discharge_summary" with
        | Option.some dischargeData =>
          (if truthy (dictGet dischargeData "diagnosis") then []
           else ["Discharge summary missing diagnosis"])
            ++ (if truthy (dictGet dischargeData "patient_name") then []
                else ["Discharge summary missing patient name"])
        | Option.none => [])
    ++ (match assocGet dataByType "insurance_card" with
        | Option.some insuranceData =>
          (if truthy (dictGet insuranceData "policy_number") then []
           else ["Insurance card missing policy number"])
            ++ (if truthy (dictGet insuranceData "sum_insured") then []
                else ["Insurance card missing sum insured amount"])
        | Option.none => [])

/-- `_check_warnings` (lines 107-144). -/
def checkWarnings (extractedData : List ExtractedData) : List String :=
  lowConfidenceWarnings extractedData
    ++ missingFieldWarnings (groupByType extractedData)

/-- `ClaimValidator.validate` (lines 13-25). -/
def validate (extractedData : List ExtractedData) : ValidationResult :=
  { missing_documents := checkMissingDocuments extractedData
    discrepancies := checkDiscrepancies extractedData
    warnings := checkWarnings extractedData }

/-! ### Decision engine (`decision_engine.py`) -/

/-- `_get_claim_amount` (lines 221-230): the first hospital-bill record whose
`total_amount` is truthy and numeric. -/
def getClaimAmount : List ExtractedData → Option ℚ
  | [] => Option.none
  | d :: rest =>
    if d.document_type = "hospital_bill" then
      match dictGet d.data "total_amount" with
      | PyValue.num q =>
        if q = 0 then getClaimAmount rest else Option.some q
      | _ => getClaimAmount rest
    else getClaimAmount rest

/-- `_is_claim_valid` (lines 232-252). -/
def isClaimValid (extractedData : List ExtractedData) : Bool :=
  let hasValidDoc := extractedData.any (fun d => d.extraction_confidence > 3 / 10)
  let hasPatientInfo := extractedData.any (fun d =>
    (d.document_type = "hospital_bill" || d.document_type = "discharge_summary")
      && truthy (dictGet d.data "patient_name"))
  let hasAmountInfo := extractedData.any (fun d =>
    d.document_type = "hospital_bill" && truthy (dictGet d.data "total_amount"))
  hasValidDoc && hasPatientInfo && hasAmountInfo

/-- `_rule_based_decision` (lines 52-113): the ordered gate chain.  The mean
confidence `sum(...) / len(extracted_data)` raises `ZeroDivisionError` on an
empty record list, modelled as `Except.error "division by zero"`
(`str(ZeroDivisionError(...))`); the check is placed where Python would
evaluate the division. -/
def ruleBasedDecision (extractedData : List ExtractedData)
    (validationResult : ValidationResult) : Except String ClaimDecision :=
  if !validationResult.missing_documents.isEmpty
      && validationResult.missing_documents.any
           (fun m => strContainsSub m "hospital_bill") then
    Except.ok
      { status := "rejected"
        reason := "Missing critical documents: " ++
          joinWith ", " validationResult.missing_documents
        confidence := 9 / 10 }
  else if validationResult.discrepancies.length > 2 then
    Except.ok
      { status := "rejected"
        reason := "Too many discrepancies found (" ++
          toString validationResult.discrepancies.length ++ "): " ++
          joinWith "; " (validationResult.discrepancies.take 3)
        confidence := 8 / 10 }
  else if extractedData.length = 0 then
    Except.error "division by zero"
  else
    let avgConfidence :=
      (extractedData.map (fun d => d.extraction_confidence)).sum
        / (extractedData.length : ℚ)
    if avgConfidence < 3 / 10 then
      Except.ok
        { status := "rejected"
          reason := "Low data extraction confidence (" ++ formatQ2 avgConfidence ++
            "). Unable to verify claim details."
          confidence := 7 / 10 }
    else
      let claimAmount := getClaimAmount extractedData
      let amountTooHigh : Bool :=
        match claimAmount with
        | Option.some amt => decide (amt > 1000000)
        | Option.none => false
      if amountTooHigh then
        Except.ok
          { status := "rejected"
            reason := "Claim amount (₹" ++
              formatMoney2 ((claimAmount.getD 0)) ++
              ") exceeds maximum limit (₹" ++ formatMoney2 1000000 ++ ")"
            confidence := 9 / 10
            recommended_amount := Option.some 1000000 }
      else if !isClaimValid extractedData then
        Except.ok
          { status := "rejected"
            reason := "Claim does not meet basic validity requirements"
            confidence := 8 / 10 }
      else
        Except.ok
          { status := "approved"
            reason :=
              (if validationResult.warnings.isEmpty then
                "All documents verified and validation checks passed"
              else
                "All documents verified and validation checks passed" ++
                  ". Note: " ++ toString validationResult.warnings.length ++
                  " warnings found")
            confidence := pyMin (avgConfidence + 2 / 10) 1
            recommended_amount := claimAmount }

/-- `make_decision` (lines 28-50) in deterministic mode (no model backend
configured, so the AI-assisted pass is skipped): return the rule-based
decision, converting any internal exception into the catch-all rejection
with confidence `0.1`. -/
def makeDecision (extractedData : List ExtractedData)
    (validationResult : ValidationResult) : ClaimDecision :=
  match ruleBasedDecision extractedData validationResult with
  | Except.ok d => d
  | Except.error e =>
    { status := "rejected"
      reason := "Unable to process claim due to system error: " ++ e
      confidence := 1 / 10 }

/-! ### Top-level orchestration (`claim_processor.py`, `process_claim`,
lines 31-76).  The orchestration body (file handling, classification,
extraction, validation, decision) is abstracted as a computation that either
yields a response or raises; the embedded function is the surrounding
try/except. -/

/-- `process_claim`: on success the pipeline response is returned unchanged;
any raised exception `e` is converted into the structured error response of
lines 65-76. -/
def processClaim (pipelineRun : Except String ProcessClaimResponse) :
    ProcessClaimResponse :=
  match pipelineRun with
  | Except.ok response => response
  | Except.error e =>
    { documents := []
      validation := { discrepancies := ["Processing error: " ++ e] }
      claim_decision :=
        { status := "rejected"
          reason := "Unable to process claim due to error: " ++ e } }

/-- Score of the bill keyword set for one document, as computed inside
`_rule_based_classify`. -/
def billScoreOf (filename textContent : String) : ℕ :=
  keywordScore billKeywords (strLower filename) (strLower textContent)

/-- Score of the discharge keyword set for one document. -/
def dischargeScoreOf (filename textContent : String) : ℕ :=
  keywordScore dischargeKeywords (strLower filename) (strLower textContent)

/-- Score of the insurance keyword set for one document. -/
def insuranceScoreOf (filename textContent : String) : ℕ :=
  keywordScore insuranceKeywords (strLower filename) (strLower textContent)

/-! ### General lemmas -/

theorem charsStartWith_refl (l : List Char) : charsStartWith l l = true := by
  induction l with
  | nil => rfl
  | cons a as ih => simp [charsStartWith, ih]

theorem charsStartWith_self_append (n rest : List Char) :
    charsStartWith (n ++ rest) n = true := by
  induction n with
  | nil => cases rest <;> rfl
  | cons c n ih => simp [charsStartWith, ih]

theorem charsContain_nil (l : List Char) : charsContain l [] = true := by
  cases l with
  | nil => rfl
  | cons a as => simp [charsContain, charsStartWith]

theorem charsContain_self (l : List Char) : charsContain l l = true := by
  cases l with
  | nil => rfl
  | cons a as => simp [charsContain, charsStartWith_refl]

theorem charsContain_append_left (l1 l2 n : List Char)
    (h : charsContain l2 n = true) : charsContain (l1 ++ l2) n = true := by
  induction l1 with
  | nil => simpa using h
  | cons a t ih => simp [charsContain, ih]

theorem charsContain_self_append (n rest : List Char) :
    charsContain (n ++ rest) n = true := by
  cases n with
  | nil => exact charsContain_nil rest
  | cons c n => simp [charsContain, charsStartWith, charsStartWith_self_append]

theorem strContainsSub_append_right (p e : String) :
    strContainsSub (p ++ e) e = true := by
  unfold strContainsSub
  rw [String.data_append]
  exact charsContain_append_left _ _ _ (charsContain_self _)

theorem strContainsSub_append_middle (a n b : String) :
    strContainsSub (a ++ n ++ b) n = true := by
  unfold strContainsSub
  rw [String.data_append, String.data_append, List.append_assoc]
  exact charsContain_append_left _ _ _ (charsContain_self_append _ _)

theorem ruleBasedClassify_eq (filename textContent : String) :
    ruleBasedClassify filename textContent =
      (if billScoreOf filename textContent ≥ dischargeScoreOf filename textContent ∧
          billScoreOf filename textContent ≥ insuranceScoreOf filename textContent then
        ("hospital_bill", pyMin (9 / 10)
          ((billScoreOf filename textContent : ℚ) / (billKeywords.length : ℚ)))
      else if dischargeScoreOf filename textContent ≥ insuranceScoreOf filename textContent then
        ("discharge_summary", pyMin (9 / 10)
          ((dischargeScoreOf filename textContent : ℚ) / (dischargeKeywords.length : ℚ)))
      else if insuranceScoreOf filename textContent > 0 then
        ("insurance_card", pyMin (9 / 10)
          ((insuranceScoreOf filename textContent : ℚ) / (insuranceKeywords.length : ℚ)))
      else ("other", 1 / 10)) := rfl

theorem dictGet_map_pyOr (l full : List (String × PyValue)) :
    ∀ (rest : List (String × PyValue)) (k : String),
      (assocGet rest k).isSome = true →
      dictGet (rest.map (fun p => (p.1, pyOr (dictGet l p.1) (dictGet full p.1)))) k
        = pyOr (dictGet l k) (dictGet full k) := by
  intro rest
  induction rest with
  | nil => intro k hk; simp [assocGet] at hk
  | cons p t ih =>
    intro k hk
    by_cases h : p.1 = k
    · subst h
      simp [dictGet, assocGet]
    · have hk' : (assocGet t k).isSome = true := by
        simpa [assocGet, h] using hk
      have := ih k hk'
      simpa [dictGet, assocGet, h] using this

/-! ### Claim theorems -/

/-- C1 (amended): in `_rule_based_classify`, the label with the maximum
keyword score wins with confidence `min(0.9, score / keyword-set size)` and
ties are broken in the priority order bill, discharge, insurance; however,
when all three scores are zero the bill branch (`0 >= 0 and 0 >= 0`) is
taken, so the result is `"hospital_bill"` with confidence `0.0` — the
`"other"`/`0.1` branch of the source is unreachable. -/
theorem C1_rule_based_classify (filename textContent : String) :
    (billScoreOf filename textContent ≥ dischargeScoreOf filename textContent ∧
        billScoreOf filename textContent ≥ insuranceScoreOf filename textContent →
      ruleBasedClassify filename textContent =
        ("hospital_bill", pyMin (9 / 10) ((billScoreOf filename textContent : ℚ) / 7)))
    ∧ (¬(billScoreOf filename textContent ≥ dischargeScoreOf filename textContent ∧
          billScoreOf filename textContent ≥ insuranceScoreOf filename textContent) ∧
        dischargeScoreOf filename textContent ≥ insuranceScoreOf filename textContent →
      ruleBasedClassify filename textContent =
        ("discharge_summary", pyMin (9 / 10) ((dischargeScoreOf filename textContent : ℚ) / 5)))
    ∧ (¬(billScoreOf filename textContent ≥ dischargeScoreOf filename textContent ∧
          billScoreOf filename textContent ≥ insuranceScoreOf filename textContent) ∧
        ¬(dischargeScoreOf filename textContent ≥ insuranceScoreOf filename textContent) →
      ruleBasedClassify filename textContent =
        ("insurance_card", pyMin (9 / 10) ((insuranceScoreOf filename textContent : ℚ) / 5))
        ∧ 0 < insuranceScoreOf filename textContent)
    ∧ (billScoreOf filename textContent = 0 ∧ dischargeScoreOf filename textContent = 0 ∧
        insuranceScoreOf filename textContent = 0 →
      ruleBasedClassify filename textContent = ("hospital_bill", 0)) := by
  have e7 : (billKeywords.length : ℚ) = 7 := by norm_num [billKeywords]
  have e5d : (dischargeKeywords.length : ℚ) = 5 := by norm_num [dischargeKeywords]
  have e5i : (insuranceKeywords.length : ℚ) = 5 := by norm_num [insuranceKeywords]
  refine ⟨?_, ?_, ?_, ?_⟩
  · intro h
    rw [ruleBasedClassify_eq, if_pos h, e7]
  · intro ⟨h1, h2⟩
    rw [ruleBasedClassify_eq, if_neg h1, if_pos h2, e5d]
  · intro ⟨h1, h2⟩
    have hpos : 0 < insuranceScoreOf filename textContent :=
      lt_of_le_of_lt (Nat.zero_le _) (lt_of_not_ge h2)
    rw [ruleBasedClassify_eq, if_neg h1, if_neg h2, if_pos hpos, e5i]
    exact ⟨rfl, hpos⟩
  · intro ⟨h1, h2, h3⟩
    rw [ruleBasedClassify_eq, if_pos (by rw [h1, h2, h3]; exact ⟨le_rfl, le_rfl⟩), h1, e7]
    norm_num [pyMin]

/-- C1 witness: a filename containing the bill keywords "hospital" and
"bill" scores 2 for bills and 0 for the other labels. -/
theorem C1_rule_based_classify_witness :
    ruleBasedClassify "hospital bill" "" =
      ("hospital_bill", pyMin (9 / 10) ((billScoreOf "hospital bill" "" : ℚ) / 7)) :=
  (C1_rule_based_classify "hospital bill" "").1 ⟨by decide, by decide⟩

/-- C1 counterexample: on an empty filename and empty text all three keyword
scores are zero, yet `_rule_based_classify` returns `"hospital_bill"` with
confidence `0.0`, not `"other"` with confidence `0.1` as the claim states. -/
theorem C1_counterexample :
    ruleBasedClassify "" "" = ("hospital_bill", 0) ∧
      ruleBasedClassify "" "" ≠ ("other", 1 / 10) := by
  have h0 : ruleBasedClassify "" "" = ("hospital_bill", 0) := by
    have hb : billScoreOf "" "" = 0 := by decide
    have hd : dischargeScoreOf "" "" = 0 := by decide
    have hi : insuranceScoreOf "" "" = 0 := by decide
    rw [ruleBasedClassify_eq, hb, hd, hi]
    norm_num [pyMin, billKeywords]
  refine ⟨h0, ?_⟩
  rw [h0]
  intro h
  have := congrArg Prod.fst h
  simp at this

/-- C2: in the (shared) `_combine_extraction_results` merge step, for every
field present in the rule-based (schema) dictionary, a truthy model value
wins; a falsy model value (`None`, `0`, `""`, `[]`, or a missing key) falls
through to the pattern-extraction value; and absent model data returns the
pattern dictionary unchanged. -/
theorem C2_merge_policy (llmData ruleData : List (String × PyValue)) (k : String)
    (hk : (assocGet ruleData k).isSome = true) :
    (truthy (dictGet llmData k) = true →
      dictGet (combineExtractionResults (Option.some llmData) ruleData) k
        = dictGet llmData k)
    ∧ (truthy (dictGet llmData k) = false →
      dictGet (combineExtractionResults (Option.some llmData) ruleData) k
        = dictGet ruleData k)
    ∧ combineExtractionResults Option.none ruleData = ruleData := by
  have hcomb : dictGet (combineExtractionResults (Option.some llmData) ruleData) k
      = pyOr (dictGet llmData k) (dictGet ruleData k) :=
    dictGet_map_pyOr llmData ruleData ruleData k hk
  refine ⟨?_, ?_, rfl⟩ <;> intro h <;> rw [hcomb] <;> simp [pyOr, h]

/-- C2 witness: the model value `"Model Name"` overrides the differing
pattern value `"Pattern Name"`. -/
theorem C2_merge_policy_witness :
    dictGet (combineExtractionResults
      (Option.some [("patient_name", PyValue.str "Model Name")])
      [("patient_name", PyValue.str "Pattern Name")]) "patient_name"
      = PyValue.str "Model Name" :=
  (C2_merge_policy [("patient_name", PyValue.str "Model Name")]
    [("patient_name", PyValue.str "Pattern Name")] "patient_name" (by decide)).1
    (by decide)

/-- C3: when some missing-document entry mentions `hospital_bill` and the
discrepancy count exceeds 2, the first gate of `_rule_based_decision`
decides: rejection for the missing-document reason with confidence 0.9,
not the discrepancy-count rejection. -/
theorem C3_missing_bill_gate (extractedData : List ExtractedData)
    (validationResult : ValidationResult)
    (h1 : ∃ m ∈ validationResult.missing_documents,
      strContainsSub m "hospital_bill" = true)
    (h2 : validationResult.discrepancies.length > 2) :
    ruleBasedDecision extractedData validationResult =
      Except.ok
        { status := "rejected"
          reason := "Missing critical documents: " ++
            joinWith ", " validationResult.missing_documents
          confidence := 9 / 10 } := by
  obtain ⟨m, hm, hc⟩ := h1
  have hne : validationResult.missing_documents.isEmpty = false := by
    cases h : validationResult.missing_documents with
    | nil => rw [h] at hm; simp at hm
    | cons a t => rfl
  have hany : validationResult.missing_documents.any
      (fun m => strContainsSub m "hospital_bill") = true :=
    List.any_eq_true.mpr ⟨m, hm, hc⟩
  unfold ruleBasedDecision
  rw [hne, hany]
  rfl

/-- C3 witness: a missing-bill entry together with five discrepancies yields
the missing-document rejection. -/
theorem C3_missing_bill_gate_witness :
    ruleBasedDecision []
      { missing_documents := ["Missing required document: hospital_bill"]
        discrepancies := ["d1", "d2", "d3", "d4", "d5"]
        warnings := [] } =
      Except.ok
        { status := "rejected"
          reason := "Missing critical documents: " ++
            joinWith ", " ["Missing required document: hospital_bill"]
          confidence := 9 / 10 } :=
  C3_missing_bill_gate [] _
    ⟨"Missing required document: hospital_bill", by decide, by decide⟩ (by decide)

theorem iteBool_nonneg (c : Bool) (w : ℚ) (hw : 0 ≤ w) :
    0 ≤ (if c then w else 0) := by
  cases c <;> simp [hw]

theorem iteBool_mono (a b : Bool) (w : ℚ) (hw : 0 ≤ w) (hab : a = true → b = true) :
    (if a then w else 0) ≤ (if b then w else 0) := by
  cases a
  · cases b <;> simp [hw]
  · rw [hab rfl]

theorem pyMin_one_unit (s : ℚ) (hs : 0 ≤ s) : 0 ≤ pyMin s 1 ∧ pyMin s 1 ≤ 1 := by
  unfold pyMin
  split_ifs with h
  · exact ⟨hs, h⟩
  · exact ⟨by norm_num, le_rfl⟩

theorem pyMin_mono_left (a b c : ℚ) (hab : a ≤ b) : pyMin a c ≤ pyMin b c := by
  unfold pyMin
  split_ifs with h1 h2 h2 <;> linarith

theorem billItemsCheck_ok (v : PyValue) (b : Bool)
    (hb : billItemsCheck v = Except.ok b) : b = truthy v := by
  cases v with
  | none =>
    simp [billItemsCheck] at hb
    simp [truthy, hb]
  | str s =>
    simp [billItemsCheck] at hb
    simp [truthy, hb]
  | num q =>
    by_cases hq : q = 0
    · simp [billItemsCheck, hq] at hb
      simp [truthy, hq, hb]
    · simp [billItemsCheck, hq] at hb
  | list xs =>
    simp [billItemsCheck] at hb
    simp [truthy, hb]

/-- C4 (amended): with the model path's parsed output modelled as an
`Option` dictionary (`None` for any exception caught inside
`_llm_extract`'s generate-and-parse step) and the pattern path's output as
the rule dictionary, the discharge and insurance extractors always return a
record and the bill extractor returns one whenever the merged `items` value
is not a truthy number — in particular always when the model path yields no
data, since the pattern path's `items` is a list — and in every such case
the computed extraction confidence lies in [0,1].  The original claim's
unconditional "never raises" fails for the bill extractor: see the
counterexample, where a model response with a truthy numeric `items` field
survives the merge and `len(data['items'])` raises an uncaught
`TypeError`. -/
theorem C4_extractor_confidence_range (llmData : Option (List (String × PyValue)))
    (ruleData : List (String × PyValue))
    (h : ∃ b, billItemsCheck
      (dictGet (combineExtractionResults llmData ruleData) "items") = Except.ok b) :
    (∃ c, billCalculateConfidence (combineExtractionResults llmData ruleData)
        = Except.ok c ∧ 0 ≤ c ∧ c ≤ 1)
    ∧ (0 ≤ dischargeCalculateConfidence (combineExtractionResults llmData ruleData)
        ∧ dischargeCalculateConfidence (combineExtractionResults llmData ruleData) ≤ 1)
    ∧ (0 ≤ insuranceCalculateConfidence (combineExtractionResults llmData ruleData)
        ∧ insuranceCalculateConfidence (combineExtractionResults llmData ruleData) ≤ 1) := by
  obtain ⟨b, hb⟩ := h
  refine ⟨?_, ?_, ?_⟩
  · unfold billCalculateConfidence
    rw [hb]
    refine ⟨_, rfl, ?_, ?_⟩
    · refine (pyMin_one_unit _ ?_).1
      repeat' apply add_nonneg
      all_goals exact iteBool_nonneg _ _ (by norm_num)
    · refine (pyMin_one_unit _ ?_).2
      repeat' apply add_nonneg
      all_goals exact iteBool_nonneg _ _ (by norm_num)
  · unfold dischargeCalculateConfidence
    constructor
    · refine (pyMin_one_unit _ ?_).1
      repeat' apply add_nonneg
      all_goals exact iteBool_nonneg _ _ (by norm_num)
    · refine (pyMin_one_unit _ ?_).2
      repeat' apply add_nonneg
      all_goals exact iteBool_nonneg _ _ (by norm_num)
  · unfold insuranceCalculateConfidence
    constructor
    · refine (pyMin_one_unit _ ?_).1
      repeat' apply add_nonneg
      all_goals exact iteBool_nonneg _ _ (by norm_num)
    · refine (pyMin_one_unit _ ?_).2
      repeat' apply add_nonneg
      all_goals exact iteBool_nonneg _ _ (by norm_num)

/-- C4 witness: with no model data and an all-absent pattern dictionary the
bill confidence evaluates to an in-range value. -/
theorem C4_extractor_confidence_range_witness :
    ∃ c, billCalculateConfidence (combineExtractionResults Option.none [])
      = Except.ok c ∧ 0 ≤ c ∧ c ≤ 1 :=
  (C4_extractor_confidence_range Option.none [] ⟨false, rfl⟩).1

/-- C4 counterexample: a parsed model response `{"items": 5}` is truthy, so
the merge prefers it over the pattern path's (empty) item list, and the bill
confidence computation then raises `TypeError` at `len(data['items'])`
(`bill_agent.py`, line 281) — uncaught by `_llm_extract`'s try/except, which
ended before `_calculate_confidence` runs — so the bill extractor does not
return a record, refuting the claim's unconditional "never raises". -/
theorem C4_counterexample :
    billCalculateConfidence
        (combineExtractionResults (Option.some [("items", PyValue.num 5)])
          [("items", PyValue.list [])])
      = Except.error "object of type number has no len()"
    ∧ ∀ c : ℚ, billCalculateConfidence
        (combineExtractionResults (Option.some [("items", PyValue.num 5)])
          [("items", PyValue.list [])]) ≠ Except.ok c := by
  have h0 : billCalculateConfidence
      (combineExtractionResults (Option.some [("items", PyValue.num 5)])
        [("items", PyValue.list [])])
      = Except.error "object of type number has no len()" := rfl
  refine ⟨h0, ?_⟩
  intro c h
  rw [h0] at h
  exact Except.noConfusion h

/-- C5: the top-level `process_claim` try/except converts any raised
orchestration error into a structured response whose decision status is
`"rejected"` and whose reason embeds the error message, and passes a
successful pipeline response through unchanged — no raw exception reaches
the caller. -/
theorem C5_process_claim_error_containment (e : String) :
    (processClaim (Except.error e)).claim_decision.status = "rejected"
    ∧ strContainsSub (processClaim (Except.error e)).claim_decision.reason e = true
    ∧ ∀ response, processClaim (Except.ok response) = response := by
  refine ⟨rfl, ?_, fun _ => rfl⟩
  show strContainsSub ("Unable to process claim due to error: " ++ e) e = true
  exact strContainsSub_append_right _ e

/-- C6: for each fixed document type's weight table, enlarging the set of
truthy (populated) fields can only increase the computed extraction
confidence. -/
theorem C6_confidence_monotonicity (d1 d2 : List (String × PyValue))
    (h : ∀ k, truthy (dictGet d1 k) = true → truthy (dictGet d2 k) = true) :
    dischargeCalculateConfidence d1 ≤ dischargeCalculateConfidence d2
    ∧ insuranceCalculateConfidence d1 ≤ insuranceCalculateConfidence d2
    ∧ ∀ c1 c2, billCalculateConfidence d1 = Except.ok c1 →
        billCalculateConfidence d2 = Except.ok c2 → c1 ≤ c2 := by
  refine ⟨?_, ?_, ?_⟩
  · unfold dischargeCalculateConfidence
    apply pyMin_mono_left
    repeat' apply add_le_add
    all_goals exact iteBool_mono _ _ _ (by norm_num) (h _)
  · unfold insuranceCalculateConfidence
    apply pyMin_mono_left
    repeat' apply add_le_add
    all_goals exact iteBool_mono _ _ _ (by norm_num) (h _)
  · intro c1 c2 h1 h2
    cases hb1 : billItemsCheck (dictGet d1 "items") with
    | error e =>
      unfold billCalculateConfidence at h1
      rw [hb1] at h1
      exact absurd h1 (by simp)
    | ok b1 =>
      cases hb2 : billItemsCheck (dictGet d2 "items") with
      | error e =>
        unfold billCalculateConfidence at h2
        rw [hb2] at h2
        exact absurd h2 (by simp)
      | ok b2 =>
        unfold billCalculateConfidence at h1 h2
        rw [hb1] at h1
        rw [hb2] at h2
        have hc1 := (Except.ok.injEq _ _).mp h1.symm
        have hc2 := (Except.ok.injEq _ _).mp h2.symm
        subst hc1
        subst hc2
        apply pyMin_mono_left
        repeat' apply add_le_add
        · exact iteBool_mono _ _ _ (by norm_num) (h _)
        · exact iteBool_mono _ _ _ (by norm_num) (h _)
        · exact iteBool_mono _ _ _ (by norm_num) (h _)
        · refine iteBool_mono _ _ _ (by norm_num) ?_
          intro hx
          have hx' : truthy (dictGet d1 "date_of_service") = true ∨
              truthy (dictGet d1 "admission_date") = true := by simpa using hx
          rcases hx' with h1' | h1'
          · have h2' := h _ h1'
            simp [h2']
          · have h2' := h _ h1'
            simp [h2']
        · exact iteBool_mono _ _ _ (by norm_num) (h _)
        · exact iteBool_mono _ _ _ (by norm_num) (h _)
        · refine iteBool_mono _ _ _ (by norm_num) ?_
          intro hbx
          rw [billItemsCheck_ok _ _ hb2]
          rw [billItemsCheck_ok _ _ hb1] at hbx
          exact h _ hbx

/-- C6 witness: the empty field dictionary is dominated by one carrying a
diagnosis. -/
theorem C6_confidence_monotonicity_witness :
    dischargeCalculateConfidence [] ≤
      dischargeCalculateConfidence [("diagnosis", PyValue.str "Viral Fever")] :=
  (C6_confidence_monotonicity [] [("diagnosis", PyValue.str "Viral Fever")]
    (by intro k hk; simp [dictGet, assocGet, truthy] at hk)).1

theorem foldl_pyMax_mem (a : ℚ) (l : List ℚ) : l.foldl pyMax a ∈ a :: l := by
  induction l generalizing a with
  | nil => simp
  | cons b t ih =>
    have h := ih (pyMax a b)
    have hab : pyMax a b = a ∨ pyMax a b = b := by
      unfold pyMax; split_ifs <;> simp
    show (b :: t).foldl pyMax a ∈ a :: b :: t
    rcases List.mem_cons.mp h with h' | h'
    · rcases hab with h'' | h''
      · exact List.mem_cons.mpr (Or.inl (by rw [List.foldl_cons, h', h'']))
      · refine List.mem_cons.mpr (Or.inr (List.mem_cons.mpr (Or.inl ?_)))
        rw [List.foldl_cons, h', h'']
    · exact List.mem_cons.mpr (Or.inr (List.mem_cons.mpr (Or.inr h')))

theorem le_foldl_pyMax (a : ℚ) (l : List ℚ) :
    a ≤ l.foldl pyMax a ∧ ∀ x ∈ l, x ≤ l.foldl pyMax a := by
  induction l generalizing a with
  | nil => simp
  | cons b t ih =>
    obtain ⟨h1, h2⟩ := ih (pyMax a b)
    have ha : a ≤ pyMax a b := by
      unfold pyMax; split_ifs with hle
      · exact hle
      · exact le_rfl
    have hb : b ≤ pyMax a b := by
      unfold pyMax; split_ifs with hle
      · exact le_rfl
      · exact le_of_not_le hle
    refine ⟨le_trans ha h1, ?_⟩
    intro x hx
    rcases List.mem_cons.mp hx with rfl | hx'
    · exact le_trans hb h1
    · exact h2 x hx'

/-- C8: given the numeric match strings collected by the sum-insured regex
scan, `_extract_sum_insured` keeps exactly the candidates that parse (after
comma stripping) to a value of at least 10,000, returns their maximum, and
returns `None` when no candidate survives; in particular the match strings
arising from the text with `"Coverage: Rs. 500,000"` and a stray `"50"`
yield `500000.0`. -/
theorem C8_sum_insured_extraction :
    (∀ matchStrs : List String,
      (extractSumInsured matchStrs = Option.none ↔ sumInsuredCandidates matchStrs = [])
      ∧ ∀ m, extractSumInsured matchStrs = Option.some m →
          m ∈ sumInsuredCandidates matchStrs ∧
            ∀ x ∈ sumInsuredCandidates matchStrs, x ≤ m)
    ∧ extractSumInsured ["500,000", "500,000", "50"] = Option.some 500000 := by
  constructor
  · intro matchStrs
    constructor
    · unfold extractSumInsured
      cases hc : sumInsuredCandidates matchStrs with
      | nil => simp
      | cons a rest => simp
    · intro m hm
      unfold extractSumInsured at hm
      cases hc : sumInsuredCandidates matchStrs with
      | nil => rw [hc] at hm; simp at hm
      | cons a rest =>
        rw [hc] at hm
        have hm' : rest.foldl pyMax a = m := by simpa using hm
        subst hm'
        refine ⟨?_, ?_⟩
        · exact foldl_pyMax_mem a rest
        · intro x hx
          rcases List.mem_cons.mp hx with rfl | hx'
          · exact (le_foldl_pyMax x rest).1
          · exact (le_foldl_pyMax a rest).2 x hx'
  · decide

/-- C8 witness: the maximum property instantiated at the example's surviving
candidate 500000. -/
theorem C8_sum_insured_extraction_witness :
    (500000 : ℚ) ∈ sumInsuredCandidates ["500,000", "500,000", "50"] ∧
      ∀ x ∈ sumInsuredCandidates ["500,000", "500,000", "50"], x ≤ (500000 : ℚ) :=
  (C8_sum_insured_extraction.1 ["500,000", "500,000", "50"]).2 500000
    C8_sum_insured_extraction.2

/-- C9 (amended): when `make_decision` is called with an empty record list
and a validation report in which no missing-document entry mentions
`hospital_bill` **and at most two discrepancies** (so that neither of the
first two gates fires), the mean-confidence division by `len(extracted_data)`
raises `ZeroDivisionError`, and the surrounding catch-all returns the
rejected decision with confidence 0.1 embedding the system-error text. -/
theorem C9_empty_records_divzero (validationResult : ValidationResult)
    (h1 : ∀ m ∈ validationResult.missing_documents,
      strContainsSub m "hospital_bill" = false)
    (h2 : validationResult.discrepancies.length ≤ 2) :
    makeDecision [] validationResult =
      { status := "rejected"
        reason := "Unable to process claim due to system error: division by zero"
        confidence := 1 / 10 } := by
  have hany : validationResult.missing_documents.any
      (fun m => strContainsSub m "hospital_bill") = false := by
    cases hcase : validationResult.missing_documents.any
        (fun m => strContainsSub m "hospital_bill") with
    | false => rfl
    | true =>
      obtain ⟨m, hm, hc⟩ := List.any_eq_true.mp hcase
      rw [h1 m hm] at hc
      simp at hc
  unfold makeDecision ruleBasedDecision
  rw [hany]
  simp only [Bool.and_false, Bool.false_eq_true, if_false]
  rw [if_neg (by omega : ¬ validationResult.discrepancies.length > 2)]
  rfl

/-- C9 witness: the fully empty validation report reaches the division and
produces the system-error rejection. -/
theorem C9_empty_records_divzero_witness :
    makeDecision [] { missing_documents := [], discrepancies := [], warnings := [] } =
      { status := "rejected"
        reason := "Unable to process claim due to system error: division by zero"
        confidence := 1 / 10 } :=
  C9_empty_records_divzero { missing_documents := [], discrepancies := [], warnings := [] }
    (by intro m hm; simp at hm) (by decide)

/-- C9 counterexample: with an empty record list but **three** discrepancies
the discrepancy gate fires before the mean-confidence division, so the
result is the ordinary gate rejection with confidence 0.8 — not the
system-error rejection with confidence 0.1 that the claim predicts for every
such validation report. -/
theorem C9_counterexample :
    makeDecision []
        { missing_documents := [], discrepancies := ["d1", "d2", "d3"], warnings := [] } =
      { status := "rejected"
        reason := "Too many discrepancies found (3): d1; d2; d3"
        confidence := 8 / 10 }
    ∧ (makeDecision []
        { missing_documents := [], discrepancies := ["d1", "d2", "d3"], warnings := [] }).confidence
        ≠ 1 / 10 := by
  have h : makeDecision []
      { missing_documents := [], discrepancies := ["d1", "d2", "d3"], warnings := [] } =
      { status := "rejected"
        reason := "Too many discrepancies found (3): d1; d2; d3"
        confidence := 8 / 10 } := rfl
  refine ⟨h, ?_⟩
  rw [h]
  norm_num

theorem admissionDateDiscrepancies_cases
    (dataByType : List (String × List (String × PyValue))) :
    admissionDateDiscrepancies dataByType = [] ∨
      ∃ x y : String, admissionDateDiscrepancies dataByType =
        ["Admission date mismatch: Bill shows " ++ x ++
          ", Discharge summary shows " ++ y] := by
  unfold admissionDateDiscrepancies
  split
  · dsimp only
    split
    · right; exact ⟨_, _, rfl⟩
    · left; rfl
  · left; rfl

theorem dischargeDateDiscrepancies_cases
    (dataByType : List (String × List (String × PyValue))) :
    dischargeDateDiscrepancies dataByType = [] ∨
      ∃ x y : String, dischargeDateDiscrepancies dataByType =
        ["Discharge date mismatch: Bill shows " ++ x ++
          ", Discharge summary shows " ++ y] := by
  unfold dischargeDateDiscrepancies
  split
  · dsimp only
    split
    · right; exact ⟨_, _, rfl⟩
    · left; rfl
  · left; rfl

theorem hospitalNameDiscrepancies_cases
    (dataByType : List (String × List (String × PyValue))) :
    hospitalNameDiscrepancies dataByType = [] ∨
      ∃ x : String, hospitalNameDiscrepancies dataByType =
        ["Hospital name mismatch: " ++ x] := by
  unfold hospitalNameDiscrepancies
  dsimp only
  split
  · right; exact ⟨_, rfl⟩
  · left; rfl

theorem insuranceCompanyDiscrepancies_cases
    (dataByType : List (String × List (String × PyValue))) :
    insuranceCompanyDiscrepancies dataByType = [] ∨
      ∃ x y : String, insuranceCompanyDiscrepancies dataByType =
        ["Insurance company mismatch: Bill shows " ++ x ++ ", Card shows " ++ y] := by
  unfold insuranceCompanyDiscrepancies
  split
  · dsimp only
    split
    · right; exact ⟨_, _, rfl⟩
    · left; rfl
  · left; rfl

/-- C7 (amended): consider a record list on which the validator's per-type
grouping yields a hospital-bill entry and a discharge-summary entry whose
identity fields (`patient_name or card_holder_name`) are non-empty strings
`n1` and `n2`, and **no insurance-card entry** (a third collected name, or a
later duplicate record, can change the outcome).  If the two names are equal
after lower-casing and collapsing whitespace, `validate` reports no
patient-name discrepancy; otherwise it reports exactly one patient-name
mismatch string, and that string contains both documents' values. -/
theorem C7_patient_name_check (records : List ExtractedData)
    (db dd : List (String × PyValue)) (n1 n2 : String)
    (hb : assocGet (groupByType records) "hospital_bill" = Option.some db)
    (hd : assocGet (groupByType records) "discharge_summary" = Option.some dd)
    (hi : assocGet (groupByType records) "insurance_card" = Option.none)
    (hn1 : pyOr (dictGet db "patient_name") (dictGet db "card_holder_name")
      = PyValue.str n1)
    (hn2 : pyOr (dictGet dd "patient_name") (dictGet dd "card_holder_name")
      = PyValue.str n2)
    (h1 : n1 ≠ "") (h2 : n2 ≠ "") :
    (normalizeName n1 = normalizeName n2 →
      (validate records).discrepancies.filter
        (fun s => strBeginsWith s "Patient name mismatch") = [])
    ∧ (normalizeName n1 ≠ normalizeName n2 →
      (validate records).discrepancies.filter
          (fun s => strBeginsWith s "Patient name mismatch")
        = ["Patient name mismatch across documents: " ++
            joinWith ", " ["hospital_bill: " ++ n1, "discharge_summary: " ++ n2]]
      ∧ strContainsSub ("Patient name mismatch across documents: " ++
          joinWith ", " ["hospital_bill: " ++ n1, "discharge_summary: " ++ n2]) n1 = true
      ∧ strContainsSub ("Patient name mismatch across documents: " ++
          joinWith ", " ["hospital_bill: " ++ n1, "discharge_summary: " ++ n2]) n2 = true) := by
  have hpn : patientNames (groupByType records) =
      [("hospital_bill", PyValue.str n1), ("discharge_summary", PyValue.str n2)] := by
    unfold patientNames
    simp only [List.filterMap_cons, List.filterMap_nil, hb, hd, hi, hn1, hn2]
    simp [truthy, h1, h2]
  have hpatientBlock : patientNameDiscrepancies (groupByType records) =
      (if normalizeName n2 = normalizeName n1 then []
       else ["Patient name mismatch across documents: " ++
         joinWith ", " ["hospital_bill: " ++ n1, "discharge_summary: " ++ n2]]) := by
    unfold patientNameDiscrepancies
    rw [hpn]
    by_cases heq : normalizeName n2 = normalizeName n1
    · rw [if_pos heq]
      simp [namesMatch, pyStr, heq]
    · rw [if_neg heq]
      simp [namesMatch, pyStr, heq]
  have hAfilter : (admissionDateDiscrepancies (groupByType records)).filter
      (fun s => strBeginsWith s "Patient name mismatch") = [] := by
    rcases admissionDateDiscrepancies_cases (groupByType records) with hA | ⟨x, y, hA⟩ <;>
      rw [hA] <;> rfl
  have hDfilter : (dischargeDateDiscrepancies (groupByType records)).filter
      (fun s => strBeginsWith s "Patient name mismatch") = [] := by
    rcases dischargeDateDiscrepancies_cases (groupByType records) with hD | ⟨x, y, hD⟩ <;>
      rw [hD] <;> rfl
  have hHfilter : (hospitalNameDiscrepancies (groupByType records)).filter
      (fun s => strBeginsWith s "Patient name mismatch") = [] := by
    rcases hospitalNameDiscrepancies_cases (groupByType records) with hH | ⟨x, hH⟩ <;>
      rw [hH] <;> rfl
  have hIfilter : (insuranceCompanyDiscrepancies (groupByType records)).filter
      (fun s => strBeginsWith s "Patient name mismatch") = [] := by
    rcases insuranceCompanyDiscrepancies_cases (groupByType records) with hI | ⟨x, y, hI⟩ <;>
      rw [hI] <;> rfl
  have hdisc : (validate records).discrepancies =
      patientNameDiscrepancies (groupByType records)
        ++ admissionDateDiscrepancies (groupByType records)
        ++ dischargeDateDiscrepancies (groupByType records)
        ++ hospitalNameDiscrepancies (groupByType records)
        ++ insuranceCompanyDiscrepancies (groupByType records) := rfl
  constructor
  · intro heq
    rw [hdisc, List.filter_append, List.filter_append, List.filter_append,
      List.filter_append, hAfilter, hDfilter, hHfilter, hIfilter,
      hpatientBlock, if_pos heq.symm]
    rfl
  · intro hne
    have hkeep : (["Patient name mismatch across documents: " ++
        joinWith ", " ["hospital_bill: " ++ n1, "discharge_summary: " ++ n2]].filter
        (fun s => strBeginsWith s "Patient name mismatch")) =
        ["Patient name mismatch across documents: " ++
          joinWith ", " ["hospital_bill: " ++ n1, "discharge_summary: " ++ n2]] := rfl
    refine ⟨?_, ?_, ?_⟩
    · rw [hdisc, List.filter_append, List.filter_append, List.filter_append,
        List.filter_append, hAfilter, hDfilter, hHfilter, hIfilter,
        hpatientBlock, if_neg (fun hcontra => hne hcontra.symm), hkeep]
      simp
    · unfold strContainsSub
      simp only [joinWith, String.data_append, List.append_assoc]
      apply charsContain_append_left
      apply charsContain_append_left
      exact charsContain_self_append _ _
    · unfold strContainsSub
      simp only [joinWith, String.data_append, List.append_assoc]
      apply charsContain_append_left
      apply charsContain_append_left
      apply charsContain_append_left
      apply charsContain_append_left
      apply charsContain_append_left
      exact charsContain_self _

/-- C7 witness: with only a bill and a discharge record whose names differ
in case and spacing, no patient-name discrepancy is raised, by the equal-name
direction of the theorem. -/
theorem C7_patient_name_check_witness :
    (validate
        [⟨"hospital_bill", [("patient_name", PyValue.str "John Smith")], 1, ""⟩,
         ⟨"discharge_summary", [("patient_name", PyValue.str "john   smith")], 1, ""⟩]).discrepancies.filter
      (fun s => strBeginsWith s "Patient name mismatch") = [] :=
  (C7_patient_name_check
    [⟨"hospital_bill", [("patient_name", PyValue.str "John Smith")], 1, ""⟩,
     ⟨"discharge_summary", [("patient_name", PyValue.str "john   smith")], 1, ""⟩]
    [("patient_name", PyValue.str "John Smith")]
    [("patient_name", PyValue.str "john   smith")]
    "John Smith" "john   smith" rfl rfl rfl rfl rfl
    (by decide) (by decide)).1 (by decide)

/-- C7 counterexample: the record set also contains an insurance card whose
card-holder name differs; although the bill and discharge names are equal
(even verbatim), `validate` reports a patient-name discrepancy — refuting
the claim's universal "no discrepancy" direction over every record set
containing such a bill and discharge pair. -/
theorem C7_counterexample :
    (validate
        [⟨"hospital_bill", [("patient_name", PyValue.str "John Smith")], 1, ""⟩,
         ⟨"discharge_summary", [("patient_name", PyValue.str "John Smith")], 1, ""⟩,
         ⟨"insurance_card", [("card_holder_name", PyValue.str "Jane Roe")], 1, ""⟩]).discrepancies
      = ["Patient name mismatch across documents: hospital_bill: John Smith, " ++
          "discharge_summary: John Smith, insurance_card: Jane Roe"]
    ∧ normalizeName "John Smith" = normalizeName "John Smith" := by
  exact ⟨by decide, rfl⟩

theorem assocGet_groupFold (l : List ExtractedData)
    (m1 m2 : List (String × List (String × PyValue)))
    (h : ∀ k, assocGet m1 k = assocGet m2 k ∨ ∃ c ∈ l, c.document_type = k) :
    ∀ k, assocGet (l.foldl (fun m d => (d.document_type, d.data) :: m) m1) k
      = assocGet (l.foldl (fun m d => (d.document_type, d.data) :: m) m2) k := by
  induction l generalizing m1 m2 with
  | nil =>
    intro k
    rcases h k with h' | h'
    · simpa using h'
    · obtain ⟨c, hc, _⟩ := h'
      simp at hc
  | cons d t ih =>
    intro k
    simp only [List.foldl_cons]
    apply ih
    intro k'
    by_cases hk : d.document_type = k'
    · left
      simp [assocGet, hk]
    · rcases h k' with h' | h'
      · left
        simp [assocGet, hk, h']
      · obtain ⟨c, hc, hct⟩ := h'
        rcases List.mem_cons.mp hc with rfl | hc'
        · exact absurd hct hk
        · exact Or.inr ⟨c, hc', hct⟩

theorem groupByType_apply_eq (xs ys : List ExtractedData) (a b : ExtractedData)
    (ht : a.document_type = b.document_type)
    (hys : ∃ c ∈ ys, c.document_type = a.document_type) :
    ∀ k, assocGet (groupByType (xs ++ a :: ys)) k
      = assocGet (groupByType (xs ++ b :: ys)) k := by
  intro k
  unfold groupByType
  rw [List.foldl_append, List.foldl_append]
  simp only [List.foldl_cons]
  apply assocGet_groupFold
  intro k'
  by_cases hk : a.document_type = k'
  · right
    obtain ⟨c, hc, hct⟩ := hys
    exact ⟨c, hc, by rw [hct, hk]⟩
  · left
    have hk2 : ¬ b.document_type = k' := by
      rw [← ht]; exact hk
    simp [assocGet, hk, hk2]

theorem discrepancyBlocks_congr (d1 d2 : List (String × List (String × PyValue)))
    (h : ∀ k, assocGet d1 k = assocGet d2 k) :
    patientNameDiscrepancies d1 = patientNameDiscrepancies d2
    ∧ admissionDateDiscrepancies d1 = admissionDateDiscrepancies d2
    ∧ dischargeDateDiscrepancies d1 = dischargeDateDiscrepancies d2
    ∧ hospitalNameDiscrepancies d1 = hospitalNameDiscrepancies d2
    ∧ insuranceCompanyDiscrepancies d1 = insuranceCompanyDiscrepancies d2
    ∧ missingFieldWarnings d1 = missingFieldWarnings d2 := by
  refine ⟨?_, ?_, ?_, ?_, ?_, ?_⟩ <;>
    simp only [patientNameDiscrepancies, patientNames, admissionDateDiscrepancies,
      dischargeDateDiscrepancies, hospitalNameDiscrepancies, hospitalNamePairs,
      insuranceCompanyDiscrepancies, missingFieldWarnings,
      List.filterMap_cons, List.filterMap_nil,
      h "hospital_bill", h "discharge_summary", h "insurance_card"]

/-- C10: when a record's document type occurs again later in the list, the
per-type grouping overwrites it, so replacing the earlier record's field
data (keeping its type) changes neither the cross-document discrepancy
checks, nor the missing-field warnings, nor the missing-document check —
only the last record of each type supplies the compared field values. -/
theorem C10_duplicate_type_last_wins (xs ys : List ExtractedData)
    (a b : ExtractedData)
    (ht : a.document_type = b.document_type)
    (hys : ∃ c ∈ ys, c.document_type = a.document_type) :
    checkDiscrepancies (xs ++ a :: ys) = checkDiscrepancies (xs ++ b :: ys)
    ∧ missingFieldWarnings (groupByType (xs ++ a :: ys))
        = missingFieldWarnings (groupByType (xs ++ b :: ys))
    ∧ checkMissingDocuments (xs ++ a :: ys) = checkMissingDocuments (xs ++ b :: ys) := by
  have hmap := groupByType_apply_eq xs ys a b ht hys
  obtain ⟨hp, hadm, hdis, hhos, hins, hmf⟩ := discrepancyBlocks_congr _ _ hmap
  refine ⟨?_, hmf, ?_⟩
  · unfold checkDiscrepancies
    dsimp only
    rw [hp, hadm, hdis, hhos, hins]
  · unfold checkMissingDocuments
    have hmapeq : (xs ++ a :: ys).map (fun d => d.document_type)
        = (xs ++ b :: ys).map (fun d => d.document_type) := by
      simp [ht]
    rw [hmapeq]

/-- C10 witness: overwriting an earlier duplicate bill record's data (here,
replacing its patient name by nothing at all) leaves the discrepancy list
unchanged, because the later bill record supplies the compared values. -/
theorem C10_duplicate_type_last_wins_witness :
    checkDiscrepancies
        [⟨"hospital_bill", [("patient_name", PyValue.str "Jane Roe")], 1, ""⟩,
         ⟨"hospital_bill", [("patient_name", PyValue.str "John Smith")], 1, ""⟩,
         ⟨"discharge_summary", [("patient_name", PyValue.str "John Smith")], 1, ""⟩] =
      checkDiscrepancies
        [⟨"hospital_bill", [], 1, ""⟩,
         ⟨"hospital_bill", [("patient_name", PyValue.str "John Smith")], 1, ""⟩,
         ⟨"discharge_summary", [("patient_name", PyValue.str "John Smith")], 1, ""⟩] :=
  (C10_duplicate_type_last_wins []
    [⟨"hospital_bill", [("patient_name", PyValue.str "John Smith")], 1, ""⟩,
     ⟨"discharge_summary", [("patient_name", PyValue.str "John Smith")], 1, ""⟩]
    ⟨"hospital_bill", [("patient_name", PyValue.str "Jane Roe")], 1, ""⟩
    ⟨"hospital_bill", [], 1, ""⟩
    rfl
    ⟨⟨"hospital_bill", [("patient_name", PyValue.str "John Smith")], 1, ""⟩,
      List.mem_cons_self _ _, rfl⟩).1

end MedClaim
